import Mathlib

/-!
Verification of the Sensory Proximity Feedback Engine (Echo Grove).

Shallow embedding of the core components of the game source:

* `CreatureFactBox` / `GameEngine` — the discovery session (fact box with
  countdown, explicit close button, and the level-completion callback wiring).
* `AudioMode`, `MultiSensoryMode`, `ProximityEngine` — the distance-to-proximity
  mappers, the primary audio dispatcher and the decoy feedback channels.
* `UseTalkBack` — the narration announcer (de-duplication, priorities).
* `UseHaptics` — the haptic primitives and their duration caps.
* Decoy generation from `GameEngine` (rejection sampling with attempt budget).

Times are modelled as integer milliseconds, dispatcher proximities as
rationals, and the geometric/curve computations as reals (the source uses
IEEE doubles; the real-number idealization is standard).  Randomness is an
explicit stream `ℕ → ℝ` of draws in `[0,1)`, consumed left to right exactly
as the source calls `Math.random()`.
-/

/-! ### Discovery session: CreatureFactBox + GameEngine wiring

`GameEngine` passes `handleFactComplete` (which hides the fact box and calls
the external `onLevelComplete`) as BOTH the `onClose` and the `onComplete`
prop of `CreatureFactBox`.  The session record tracks the `completedRef`
guard, the countdown value, whether the countdown interval is still active,
whether the fact box is shown, and how many times the external completion
signal `onLevelComplete` has been invoked. -/

structure FactBoxSession where
  completedRef : Bool
  countdown : ℤ
  intervalActive : Bool
  showFact : Bool
  completions : ℕ
  deriving Repr, DecidableEq

namespace GameEngine

/-- `handleFactComplete`: `setShowFact(false); onLevelComplete();`
(GameEngine.tsx lines 247–250).  Each invocation fires the external
level-completion signal once. -/
def handleFactComplete (s : FactBoxSession) : FactBoxSession :=
  { s with showFact := false, completions := s.completions + 1 }

end GameEngine

namespace CreatureFactBox

/-- The guarded completion block
`if (!completedRef.current) { completedRef.current = true; onComplete(); }`
with `onComplete = GameEngine.handleFactComplete`. -/
def completeOnce (s : FactBoxSession) : FactBoxSession :=
  if s.completedRef then s
  else GameEngine.handleFactComplete { s with completedRef := true }

/-- One tick of the countdown interval (CreatureFactBox.tsx lines 39–53):
decrement `countdownValue`; when it reaches `≤ 0`, clear the interval and run
the guarded completion. -/
def countdownTick (s : FactBoxSession) : FactBoxSession :=
  if s.intervalActive then
    let c := s.countdown - 1
    let s1 := { s with countdown := c }
    if c ≤ 0 then completeOnce { s1 with intervalActive := false } else s1
  else s

/-- `handleClose` (CreatureFactBox.tsx lines 96–103): call `onClose()`
unconditionally, then the guarded completion.  `GameEngine` wires
`onClose = onComplete = handleFactComplete`. -/
def handleClose (s : FactBoxSession) : FactBoxSession :=
  completeOnce (GameEngine.handleFactComplete s)

/-- Session state when the fact box appears and the countdown starts
(talk-back disabled path: countdown starts immediately at 5). -/
def initialSession : FactBoxSession :=
  { completedRef := false, countdown := 5, intervalActive := true,
    showFact := true, completions := 0 }

end CreatureFactBox

/-! ### Narration announcer: useTalkBack

State of the speech subsystem: `lastSpokenText` is the de-duplication memory,
`utteranceRef` the last utterance handed to the synthesiser, `queue` the
platform's utterance queue (head is in flight), `spoken` the log of utterances
passed to `speechSynthesis.speak`, `cancelled` the log of utterances removed
by `speechSynthesis.cancel`. -/

structure TalkBackState where
  lastSpokenText : String
  utteranceRef : Option String
  queue : List String
  spoken : List String
  cancelled : List String
  deriving Repr, DecidableEq

inductive Priority where
  | polite
  | assertive
  deriving Repr, DecidableEq

namespace UseTalkBack

/-- `window.speechSynthesis.cancel()`: drops the whole utterance queue. -/
def cancelSpeech (s : TalkBackState) : TalkBackState :=
  { s with cancelled := s.cancelled ++ s.queue, queue := [] }

/-- `speak(text, priority)` (useTalkBack.ts lines 7–91): suppressed when
disabled (the `enabled` flag also stands for `window.speechSynthesis` being
present, the other half of the same guard); suppressed when `text` equals the
de-duplication memory unless the priority is `assertive`; an `assertive` call
cancels in-flight speech when an utterance reference exists; finally the new
utterance is queued. -/
def speak (enabled : Bool) (text : String) (priority : Priority)
    (s : TalkBackState) : TalkBackState :=
  if ¬enabled then s
  else if s.lastSpokenText = text ∧ priority ≠ Priority.assertive then s
  else
    let s1 := { s with lastSpokenText := text }
    let s2 := if priority = Priority.assertive ∧ s1.utteranceRef.isSome
              then cancelSpeech s1 else s1
    { s2 with utteranceRef := some text,
              queue := s2.queue ++ [text],
              spoken := s2.spoken ++ [text] }

/-- `utterance.onend` handler body after the 1000 ms grace delay
(useTalkBack.ts lines 83–88): the de-duplication memory is cleared. -/
def graceClear (s : TalkBackState) : TalkBackState :=
  { s with lastSpokenText := "" }

/-- The platform finishing the in-flight utterance (head of the queue). -/
def utteranceEnd (s : TalkBackState) : TalkBackState :=
  { s with queue := s.queue.tail }

/-- `stop()` (useTalkBack.ts lines 93–98): cancel in-flight speech and clear
the de-duplication memory unconditionally. -/
def stop (s : TalkBackState) : TalkBackState :=
  { cancelSpeech s with lastSpokenText := "" }

end UseTalkBack

/-! ### Primary audio channel dispatcher: AudioMode

Level-indexed tables and the per-tick emission rule for the creature sound on
the primary audio channel (AudioMode/part_000 lines 87–118).  The channel
state holds the proximity at the last emission and the time of the last
emission. -/

structure PrimaryAudioState where
  lastProximity : ℚ
  lastPlayTime : ℤ
  deriving Repr, DecidableEq

namespace AudioMode

/-- `audioUpdateDelay` table (`|| 500` default). -/
def audioUpdateDelay : ℕ → ℤ
  | 1 => 200
  | 2 => 350
  | 3 => 500
  | 4 => 800
  | 5 => 1200
  | _ => 500

/-- `minProximityForSound` table (`|| 0.1` default). -/
def minProximityForSound : ℕ → ℚ
  | 1 => 0.05
  | 2 => 0.08
  | 3 => 0.12
  | 4 => 0.18
  | 5 => 0.25
  | _ => 0.1

/-- The emission condition of the primary audio channel:
`adjustedProximity > minProximityForSound[level] &&
 (|adjustedProximity − lastProximity| > 0.1 || now − lastPlayTime > delay)`. -/
def primaryAudioCond (level : ℕ) (s : PrimaryAudioState) (p : ℚ) (now : ℤ) :
    Prop :=
  minProximityForSound level < p ∧
    (0.1 < |p - s.lastProximity| ∨ audioUpdateDelay level < now - s.lastPlayTime)

instance (level : ℕ) (s : PrimaryAudioState) (p : ℚ) (now : ℤ) :
    Decidable (primaryAudioCond level s p now) := by
  unfold primaryAudioCond; infer_instance

/-- One tick of the primary audio channel: emit when the condition holds and
record the emitted proximity and the emission time. -/
def primaryAudioStep (level : ℕ) (s : PrimaryAudioState) (p : ℚ) (now : ℤ) :
    Bool × PrimaryAudioState :=
  if primaryAudioCond level s p now then (true, ⟨p, now⟩) else (false, s)

/-- Decoy tone handling in AudioMode (part_000 lines 120–154): the whole
decoy loop is gated on `level >= 2`; per decoy a tone plays when that decoy's
proximity exceeds 0.3 and more than 1500 ms have elapsed since the decoy's
last tone; the per-decoy timestamp updates exactly on emission. -/
def decoyStep (level : ℕ) (p : ℚ) (now lastTime : ℤ) : Bool × ℤ :=
  if 2 ≤ level then
    if 0.3 < p then
      if 1500 < now - lastTime then (true, now) else (false, lastTime)
    else (false, lastTime)
  else (false, lastTime)

end AudioMode

/-! ### Decoy feedback in MultiSensoryMode

Per-decoy feedback (MultiSensoryMode/part_001 lines 91–113): the block is
entered when decoy proximity exceeds 0.3 and more than 1200 ms have elapsed;
decoy audio plays only from level 3; the decoy haptic path from level 4 (and
proximity > 0.5) calls a local `vibrate` stub that throws. -/

namespace MultiSensoryMode

/-- The local stub at the bottom of MultiSensoryMode.tsx:
`function vibrate(arg0: number) { throw new Error('Function not implemented.'); }` -/
def vibrate (_arg0 : ℤ) : Except String Unit :=
  Except.error "Function not implemented."

/-- Result of one decoy's feedback processing on one tick: whether a decoy
tone was emitted, the exception (if one was thrown), and the decoy's
last-feedback timestamp after the tick (the timestamp write is unreachable
when `vibrate` throws). -/
structure DecoyResult where
  audioEmitted : Bool
  thrown : Option String
  newLastTime : ℤ
  deriving Repr, DecidableEq

/-- One decoy's feedback step (part_001 lines 91–113). -/
def multiDecoyStep (level : ℕ) (p : ℚ) (now lastTime : ℤ) : DecoyResult :=
  if 0.3 < p ∧ 1200 < now - lastTime then
    let audioEmitted := decide (3 ≤ level)
    if 4 ≤ level ∧ 0.5 < p then
      match vibrate ⌊p * 20⌋ with
      | Except.error e =>
          { audioEmitted := audioEmitted, thrown := some e, newLastTime := lastTime }
      | Except.ok _ =>
          { audioEmitted := audioEmitted, thrown := none, newLastTime := now }
    else
      { audioEmitted := audioEmitted, thrown := none, newLastTime := now }
  else
    { audioEmitted := false, thrown := none, newLastTime := lastTime }

end MultiSensoryMode

/-! ### Haptic primitives: useHaptics

Durations in milliseconds.  `vibrate` takes either a single duration or a
pattern (alternating vibration/pause segments, vibration segments at even
indices); the intensity-based variants take an intensity and build the
duration(s) themselves.  `Math.floor` is `Int.floor`. -/

namespace UseHaptics

/-- Single-duration branch of `vibrate` (useHaptics.ts lines 7–9):
`navigator.vibrate(Math.min(400, pattern * 1.5))`. -/
def vibrateSingle (p : ℚ) : ℚ := min 400 (p * 1.5)

/-- Per-segment amplification of the pattern branch of `vibrate`
(useHaptics.ts lines 12–14): even indices (vibration segments) are amplified
and capped at 400, odd indices (pauses) pass through. -/
def amplifySegment (i : ℕ) (v : ℚ) : ℚ :=
  if i % 2 = 0 then min 400 (v * 1.5) else v

/-- `pattern.map((value, index) => ...)` with the running index. -/
def amplifyFrom (i : ℕ) : List ℚ → List ℚ
  | [] => []
  | v :: rest => amplifySegment i v :: amplifyFrom (i + 1) rest

/-- The amplified pattern passed to `navigator.vibrate`. -/
def vibratePattern (l : List ℚ) : List ℚ := amplifyFrom 0 l

/-- `vibrateWithIntensity` (useHaptics.ts lines 21–28):
`Math.min(400, Math.floor(250 * Math.pow(intensity, 1.8)))`. -/
noncomputable def vibrateWithIntensity (intensity : ℝ) : ℝ :=
  min 400 ((⌊(250 : ℝ) * intensity ^ (1.8 : ℝ)⌋ : ℤ) : ℝ)

/-- `vibrateProximityPattern` (useHaptics.ts lines 31–50): the argument list
handed to `navigator.vibrate` (empty when intensity < 0.3, i.e. no call). -/
def vibrateProximityPattern (intensity : ℚ) : List ℚ :=
  if intensity < 0.3 then []
  else if 0.8 < intensity then [((⌊intensity * 300⌋ : ℤ) : ℚ)]
  else if 0.5 < intensity then
    [((⌊intensity * 150⌋ : ℤ) : ℚ), 60, ((⌊intensity * 150⌋ : ℤ) : ℚ) * 1.2, 60]
  else [((⌊intensity * 100⌋ : ℤ) : ℚ)]

/-- Vibration (even-indexed) segments of a `navigator.vibrate` pattern. -/
def vibrationEntries : List ℚ → List ℚ
  | [] => []
  | [a] => [a]
  | a :: _ :: rest => a :: vibrationEntries rest

end UseHaptics

/-! ### Distance-to-proximity mapper

Three channels compute the level-adjusted proximity from the distance:
the primary engine (ProximityEngine/part_002), the audio-first mode
(AudioMode/part_000) and the multi-sensory mode (MultiSensoryMode/part_001).
Each has its own radius-multiplier and curve-exponent tables. -/

inductive Channel where
  | primary
  | audio
  | multi
  deriving Repr, DecidableEq

namespace ProximityMapper

noncomputable section

/-- Radius multiplier tables (`levelRadiusMultiplier`, `audioRadiusMultiplier`,
`multiSensoryRadiusMultiplier`); `|| 1.5` default in all three sources. -/
def radiusMultiplier : Channel → ℕ → ℝ
  | Channel.primary, 1 => 2.5
  | Channel.primary, 2 => 2.0
  | Channel.primary, 3 => 1.6
  | Channel.primary, 4 => 1.4
  | Channel.primary, 5 => 1.2
  | Channel.primary, _ => 1.5
  | Channel.audio, 1 => 2.2
  | Channel.audio, 2 => 1.8
  | Channel.audio, 3 => 1.5
  | Channel.audio, 4 => 1.3
  | Channel.audio, 5 => 1.1
  | Channel.audio, _ => 1.5
  | Channel.multi, 1 => 2.0
  | Channel.multi, 2 => 1.7
  | Channel.multi, 3 => 1.4
  | Channel.multi, 4 => 1.2
  | Channel.multi, 5 => 1.0
  | Channel.multi, _ => 1.5

/-- Curve exponent tables for level > 2 (`power` with `|| 0.5`, `audioPower`
with `|| 0.7`, `sensoryCurve` with `|| 0.75`). -/
def curveExponent : Channel → ℕ → ℝ
  | Channel.primary, 3 => 0.6
  | Channel.primary, 4 => 0.4
  | Channel.primary, 5 => 0.25
  | Channel.primary, _ => 0.5
  | Channel.audio, 3 => 0.7
  | Channel.audio, 4 => 0.5
  | Channel.audio, 5 => 0.35
  | Channel.audio, _ => 0.7
  | Channel.multi, 3 => 0.75
  | Channel.multi, 4 => 0.6
  | Channel.multi, 5 => 0.45
  | Channel.multi, _ => 0.75

/-- The expanded detection radius `detectionRadius * multiplier`. -/
def expandedRadius (c : Channel) (r : ℝ) (level : ℕ) : ℝ :=
  r * radiusMultiplier c level

/-- The linear proximity before the level curve.  ProximityEngine clamps the
normalized distance with `Math.min(distance / expandedRadius, 1)` first;
AudioMode and MultiSensoryMode compute `Math.max(0, 1 - d / expandedRadius)`
directly. -/
def linearProximity (c : Channel) (r d : ℝ) (level : ℕ) : ℝ :=
  match c with
  | Channel.primary => max 0 (1 - min (d / expandedRadius c r level) 1)
  | Channel.audio => max 0 (1 - d / expandedRadius c r level)
  | Channel.multi => max 0 (1 - d / expandedRadius c r level)

/-- The adjusted proximity: for `level > 2` the linear value is raised to the
channel's curve exponent (`Math.pow`), otherwise it is used as is. -/
def adjustedProximity (c : Channel) (r d : ℝ) (level : ℕ) : ℝ :=
  if 2 < level then (linearProximity c r d level) ^ (curveExponent c level)
  else linearProximity c r d level

end

end ProximityMapper

/-! ### Continuous audio session volume: useAudio

`playCreatureSoundWithProximity` (useTalkBack.ts/part lines 410–487): once a
loop is playing, the target volume is `0.1 + proximity^1.5 * 0.9` and an
update on a playing loop is applied only when it moves the volume by more
than 0.05. -/

namespace UseAudio

open Classical

/-- The volume curve applied both when starting playback and on update:
`Math.pow(proximity, 1.5)` scaled to `[0.1, 1.0]`. -/
noncomputable def targetVolume (proximity : ℝ) : ℝ :=
  0.1 + proximity ^ (1.5 : ℝ) * 0.9

/-- The update rule on an already-playing loop:
`if (Math.abs(audio.volume - volume) > 0.05) audio.volume = volume;`. -/
noncomputable def updateVolume (current proximity : ℝ) : ℝ :=
  if 0.05 < |current - targetVolume proximity| then targetVolume proximity
  else current

/-- The audibility threshold: `const isInRadius = proximity > 0.1`. -/
def isInRadius (proximity : ℝ) : Prop := 0.1 < proximity

end UseAudio

/-! ### Decoy placement generator: GameEngine

Rejection sampling inside the padded arena with a 20-attempt budget per
decoy.  The stream `rnd : ℕ → ℝ` supplies the `Math.random()` draws in call
order.  `generateDecoysFlagged` additionally records, per decoy, the final
value of the loop-local `valid` flag (which the source drops). -/

structure Decoy where
  id : ℕ
  pos : ℝ × ℝ
  radius : ℝ
  intensity : ℝ
  color : ℝ × ℝ × ℝ

structure GenConfig where
  width : ℝ
  height : ℝ
  creaturePos : ℝ × ℝ
  detectionRadius : ℝ
  creatureColor : ℝ × ℝ × ℝ
  level : ℕ

namespace GameEngine

open Classical

noncomputable section

/-- Euclidean distance, `Math.sqrt(Math.pow(dx,2) + Math.pow(dy,2))`. -/
def dist (p q : ℝ × ℝ) : ℝ :=
  Real.sqrt ((p.1 - q.1) ^ 2 + (p.2 - q.2) ^ 2)

/-- `minDistFromCreature = level <= 3 ? 150 : 100`. -/
def minDistFromCreature (level : ℕ) : ℝ := if level ≤ 3 then 150 else 100

/-- `decoyCount`: level 1 returns `[]` early; otherwise the table
`{2: 2, 3: 4, 4: 8, 5: 12}` with `|| 0` default. -/
def decoyCount (level : ℕ) : ℕ :=
  if level = 1 then 0
  else match level with
    | 2 => 2
    | 3 => 4
    | 4 => 8
    | 5 => 12
    | _ => 0

/-- A sampled point is kept when it is not within `minDistFromCreature` of
the creature and not within 70 of any already-placed decoy (GameEngine.tsx
lines 97–122, the body of one attempt). -/
def attemptValid (cfg : GenConfig) (placed : List Decoy) (x y : ℝ) : Prop :=
  ¬(dist (x, y) cfg.creaturePos < minDistFromCreature cfg.level) ∧
    ∀ e ∈ placed, ¬(dist (x, y) e.pos < 70)

/-- The attempt loop `for (attempts = 0; attempts < 20 && !valid; attempts++)`:
sample a point in the padded arena; stop early when valid; when the budget is
exhausted the LAST sampled point is returned with `valid = false`.  Returns
the point, the flag, and the stream position after the loop. -/
def placeLoop (cfg : GenConfig) (placed : List Decoy)
    (rnd : ℕ → ℝ) : ℕ → ℕ → (ℝ × ℝ × Bool) × ℕ
  | 0, k => ((0, 0, false), k)
  | fuel + 1, k =>
    let x := 50 + rnd k * (cfg.width - 100)
    let y := 50 + rnd (k + 1) * (cfg.height - 100)
    if attemptValid cfg placed x y then ((x, y, true), k + 2)
    else if fuel = 0 then ((x, y, false), k + 2)
    else placeLoop cfg placed rnd fuel (k + 2)

/-- Clamp a colour channel to `[0, 255]` after perturbation. -/
def clampChannel (v : ℝ) : ℝ := max 0 (min 255 v)

/-- The attribute draws after a position is accepted (GameEngine.tsx lines
124–139): radius, intensity and colour, consuming six stream draws. -/
def genAttrs (cfg : GenConfig) (rnd : ℕ → ℝ) (k : ℕ) :
    (ℝ × ℝ × (ℝ × ℝ × ℝ)) × ℕ :=
  let radius := max 40 (min 100 (cfg.detectionRadius * (0.3 + rnd k * 0.4)))
  let minIntensity := min (0.2 + ((cfg.level : ℝ) - 2) * 0.1) 0.5
  let maxIntensity := min (0.4 + ((cfg.level : ℝ) - 2) * 0.15) 0.9
  let intensity := minIntensity + rnd (k + 1) * (maxIntensity - minIntensity)
  let colorVariation := 30 + rnd (k + 2) * 50
  let c1 := clampChannel (cfg.creatureColor.1 +
    (if 0.5 < rnd (k + 3) then colorVariation else -colorVariation))
  let c2 := clampChannel (cfg.creatureColor.2.1 +
    (if 0.5 < rnd (k + 4) then colorVariation else -colorVariation))
  let c3 := clampChannel (cfg.creatureColor.2.2 +
    (if 0.5 < rnd (k + 5) then colorVariation else -colorVariation))
  ((radius, intensity, (c1, c2, c3)), k + 6)

/-- The outer decoy loop, producing each decoy together with the final value
of its `valid` flag. -/
def genLoop (cfg : GenConfig) (rnd : ℕ → ℝ) :
    ℕ → ℕ → ℕ → List Decoy → List (Decoy × Bool)
  | 0, _, _, _ => []
  | n + 1, i, k, placed =>
    let pl := placeLoop cfg placed rnd 20 k
    let at_ := genAttrs cfg rnd pl.2
    let d : Decoy := ⟨i, (pl.1.1, pl.1.2.1), at_.1.1, at_.1.2.1, at_.1.2.2⟩
    (d, pl.1.2.2) :: genLoop cfg rnd n (i + 1) at_.2 (placed ++ [d])

/-- Decoy generation with the per-decoy `valid` flags retained. -/
def generateDecoysFlagged (cfg : GenConfig) (rnd : ℕ → ℝ) :
    List (Decoy × Bool) :=
  genLoop cfg rnd (decoyCount cfg.level) 0 0 []

/-- The decoy list as returned by the source (`valid` flags dropped). -/
def generateDecoys (cfg : GenConfig) (rnd : ℕ → ℝ) : List Decoy :=
  (generateDecoysFlagged cfg rnd).map Prod.fst

end

end GameEngine

/-! ### Concrete instances used by witnesses and counterexamples -/

/-- Arena 800×600, creature at (400, 300) with radius 100, level 2. -/
noncomputable def cfgEx : GenConfig :=
  { width := 800, height := 600, creaturePos := (400, 300),
    detectionRadius := 100, creatureColor := (100, 150, 200), level := 2 }

/-- A stream of draws that always returns 1/2: every sampled point lands on
the creature, so every attempt is rejected. -/
noncomputable def rndHalf : ℕ → ℝ := fun _ => 1 / 2

/-- Same arena as `cfgEx`. -/
noncomputable def cfgW : GenConfig :=
  { width := 800, height := 600, creaturePos := (400, 300),
    detectionRadius := 100, creatureColor := (100, 150, 200), level := 2 }

/-- A stream of draws that always returns 1/4: the first sampled point
(225, 175) is far enough from the creature, so placement succeeds at once. -/
noncomputable def rndQuarter : ℕ → ℝ := fun _ => 1 / 4

/-- The first decoy generated by `cfgW`/`rndQuarter`: placed at (225, 175)
on the first attempt, with the attribute draws starting at stream index 2. -/
noncomputable def dW : Decoy :=
  { id := 0, pos := (225, 175),
    radius := (GameEngine.genAttrs cfgW rndQuarter 2).1.1,
    intensity := (GameEngine.genAttrs cfgW rndQuarter 2).1.2.1,
    color := (GameEngine.genAttrs cfgW rndQuarter 2).1.2.2 }

/-- The remainder of the generation run after the first decoy of
`cfgW`/`rndQuarter`. -/
noncomputable def sufW : List (Decoy × Bool) :=
  GameEngine.genLoop cfgW rndQuarter 1 1 (GameEngine.genAttrs cfgW rndQuarter 2).2 [dW]

/-! ## Theorems -/

/-! ### C1 — discovery completion signal -/

/-- Claim C1: the external level-completion signal is claimed to fire exactly
once per discovery session.  The countdown path does fire it exactly once,
but `handleClose` invokes `onClose()` unconditionally before the guarded
`onComplete()`, and `GameEngine` wires both props to `handleFactComplete`,
so one explicit close during the countdown fires `onLevelComplete` twice. -/
theorem handleClose_fires_completion_twice :
    (CreatureFactBox.handleClose CreatureFactBox.initialSession).completions = 2
    ∧ (CreatureFactBox.countdownTick (CreatureFactBox.countdownTick
        (CreatureFactBox.countdownTick (CreatureFactBox.countdownTick
          (CreatureFactBox.countdownTick
            CreatureFactBox.initialSession))))).completions = 1
    ∧ ¬((CreatureFactBox.handleClose CreatureFactBox.initialSession).completions ≤ 1) := by
  refine ⟨rfl, ?_, by decide⟩
  decide

/-! ### C9 — narration announcer -/

/-- Claim C9: a normal-priority `speak` whose text equals the immediately
preceding spoken text is suppressed (two consecutive identical normal calls
yield exactly one utterance); an assertive `speak` cancels all in-flight
speech and is spoken unconditionally; the grace-delay handler clears the
de-duplication memory; `stop()` cancels in-flight speech and clears the
memory unconditionally. -/
theorem talkback_announcer_props (s t : TalkBackState) (x : String)
    (h1 : s.lastSpokenText ≠ x) (h2 : t.utteranceRef.isSome) :
    ((UseTalkBack.speak true x Priority.polite s).spoken = s.spoken ++ [x]
      ∧ UseTalkBack.speak true x Priority.polite
          (UseTalkBack.speak true x Priority.polite s)
        = UseTalkBack.speak true x Priority.polite s)
    ∧ ((UseTalkBack.speak true x Priority.assertive t).spoken = t.spoken ++ [x]
      ∧ (UseTalkBack.speak true x Priority.assertive t).cancelled
          = t.cancelled ++ t.queue
      ∧ (UseTalkBack.speak true x Priority.assertive t).queue = [x])
    ∧ (UseTalkBack.graceClear s).lastSpokenText = ""
    ∧ (UseTalkBack.stop s).queue = []
    ∧ (UseTalkBack.stop s).lastSpokenText = ""
    ∧ (UseTalkBack.stop s).cancelled = s.cancelled ++ s.queue := by
  refine ⟨⟨?_, ?_⟩, ⟨?_, ?_, ?_⟩, rfl, rfl, rfl, rfl⟩
  · simp [UseTalkBack.speak, h1]
  · simp [UseTalkBack.speak, h1]
  · simp [UseTalkBack.speak, UseTalkBack.cancelSpeech, h2]
  · simp [UseTalkBack.speak, UseTalkBack.cancelSpeech, h2]
  · simp [UseTalkBack.speak, UseTalkBack.cancelSpeech, h2]

/-- Witness for C9 at concrete states. -/
theorem talkback_announcer_props_witness :
    ((⟨"", none, [], [], []⟩ : TalkBackState).lastSpokenText ≠ "X"
      ∧ (⟨"Y", some "Y", ["Y"], ["Y"], []⟩ : TalkBackState).utteranceRef.isSome)
    ∧ ((UseTalkBack.speak true "X" Priority.assertive
          ⟨"Y", some "Y", ["Y"], ["Y"], []⟩).spoken = ["Y"] ++ ["X"]
      ∧ (UseTalkBack.speak true "X" Priority.assertive
          ⟨"Y", some "Y", ["Y"], ["Y"], []⟩).cancelled = [] ++ ["Y"]
      ∧ (UseTalkBack.speak true "X" Priority.assertive
          ⟨"Y", some "Y", ["Y"], ["Y"], []⟩).queue = ["X"]) :=
  ⟨⟨by decide, by decide⟩,
    (talkback_announcer_props ⟨"", none, [], [], []⟩
      ⟨"Y", some "Y", ["Y"], ["Y"], []⟩ "X" (by decide) (by decide)).2.1⟩

/-! ### C6 — primary audio channel rate limiting -/

/-- Claim C6: a creature-sound emission on the primary audio channel occurs
only when the adjusted proximity exceeds the level's activation threshold and
either the re-trigger interval has elapsed or the significant-change override
(`|newProximity − lastEmitted| > 0.1`) applies; consecutive emissions without
the override are separated by more than the configured interval; the override
permits emitting regardless of elapsed time. -/
theorem primary_audio_gating (level : ℕ) (s : PrimaryAudioState)
    (p₁ p₂ : ℚ) (t₁ t₂ : ℤ)
    (h₁ : (AudioMode.primaryAudioStep level s p₁ t₁).1 = true) :
    (AudioMode.minProximityForSound level < p₁
      ∧ (0.1 < |p₁ - s.lastProximity|
        ∨ AudioMode.audioUpdateDelay level < t₁ - s.lastPlayTime))
    ∧ ((AudioMode.primaryAudioStep level
          (AudioMode.primaryAudioStep level s p₁ t₁).2 p₂ t₂).1 = true →
        ¬(0.1 < |p₂ - p₁|) →
        AudioMode.audioUpdateDelay level < t₂ - t₁)
    ∧ (∀ q : ℚ, ∀ now : ℤ, AudioMode.minProximityForSound level < q →
        0.1 < |q - s.lastProximity| →
        (AudioMode.primaryAudioStep level s q now).1 = true) := by
  have hc : AudioMode.primaryAudioCond level s p₁ t₁ := by
    by_contra hnc
    simp [AudioMode.primaryAudioStep, hnc] at h₁
  refine ⟨hc, ?_, ?_⟩
  · intro h₂ hno
    have hstate : (AudioMode.primaryAudioStep level s p₁ t₁).2 = ⟨p₁, t₁⟩ := by
      simp [AudioMode.primaryAudioStep, hc]
    rw [hstate] at h₂
    by_contra hdelay
    have : ¬AudioMode.primaryAudioCond level ⟨p₁, t₁⟩ p₂ t₂ := by
      intro hc2
      rcases hc2.2 with hov | hdel
      · exact hno hov
      · exact hdelay hdel
    simp [AudioMode.primaryAudioStep, this] at h₂
  · intro q now hq hov
    have : AudioMode.primaryAudioCond level s q now := ⟨hq, Or.inl hov⟩
    simp [AudioMode.primaryAudioStep, this]

/-- Witness for C6: level 1, fresh channel state, proximity 1/2 at t = 1000
emits (threshold 0.05 exceeded, override |1/2 − 0| > 0.1 applies). -/
theorem primary_audio_gating_witness :
    (AudioMode.primaryAudioStep 1 ⟨0, 0⟩ (1/2) 1000).1 = true
    ∧ (AudioMode.minProximityForSound 1 < 1/2
      ∧ (0.1 < |(1/2 : ℚ) - (⟨0, 0⟩ : PrimaryAudioState).lastProximity|
        ∨ AudioMode.audioUpdateDelay 1 < 1000 - (⟨0, 0⟩ : PrimaryAudioState).lastPlayTime)) := by
  have hfire : (AudioMode.primaryAudioStep 1 ⟨0, 0⟩ (1/2) 1000).1 = true := by
    have hc : AudioMode.primaryAudioCond 1 ⟨0, 0⟩ (1/2) 1000 := by
      constructor
      · norm_num [AudioMode.minProximityForSound]
      · left
        show (0.1 : ℚ) < |1/2 - 0|
        rw [sub_zero, abs_of_nonneg (by norm_num : (0 : ℚ) ≤ 1/2)]
        norm_num
    unfold AudioMode.primaryAudioStep
    rw [if_pos hc]
  exact ⟨hfire, (primary_audio_gating 1 ⟨0, 0⟩ (1/2) (3/5) 1000 1300 hfire).1⟩

/-! ### C4 — decoy channel gating -/

/-- Counterexample to C4 as stated: in audio-first mode the decoy tone path
is gated on `level >= 2`, so at level 2 a decoy tone is emitted even though
the claim allows decoy audio only from level 3. -/
theorem audioMode_decoy_tone_at_level_two :
    (AudioMode.decoyStep 2 (1/2) 2000 0).1 = true ∧ ¬(3 ≤ 2) := by
  refine ⟨?_, by decide⟩
  norm_num [AudioMode.decoyStep]

/-- Claim C4 (amended): decoy audio fires from level ≥ 2 in audio-first mode
and from level ≥ 3 in multi-sensory mode; the decoy haptic path is taken only
at level ≥ 4 with decoy proximity > 0.5; every decoy channel fires only above
decoy proximity 0.3, and per decoy at most once per 1500 ms (audio-first) /
1200 ms (multi-sensory). -/
theorem decoy_channel_gating (level : ℕ) (p p₂ : ℚ) (now lastTime t₂ : ℤ) :
    ((AudioMode.decoyStep level p now lastTime).1 = true
      ↔ 2 ≤ level ∧ 0.3 < p ∧ 1500 < now - lastTime)
    ∧ ((MultiSensoryMode.multiDecoyStep level p now lastTime).audioEmitted = true
      ↔ 3 ≤ level ∧ 0.3 < p ∧ 1200 < now - lastTime)
    ∧ ((MultiSensoryMode.multiDecoyStep level p now lastTime).thrown.isSome
      ↔ 4 ≤ level ∧ 0.5 < p ∧ 0.3 < p ∧ 1200 < now - lastTime)
    ∧ ((AudioMode.decoyStep level p now lastTime).1 = true →
        (AudioMode.decoyStep level p₂ t₂
          (AudioMode.decoyStep level p now lastTime).2).1 = true →
        1500 < t₂ - now)
    ∧ ((MultiSensoryMode.multiDecoyStep level p now lastTime).audioEmitted = true →
        (MultiSensoryMode.multiDecoyStep level p now lastTime).thrown = none →
        (MultiSensoryMode.multiDecoyStep level p₂ t₂
          (MultiSensoryMode.multiDecoyStep level p now lastTime).newLastTime).audioEmitted
          = true →
        1200 < t₂ - now) := by
  refine ⟨?_, ?_, ?_, ?_, ?_⟩
  · unfold AudioMode.decoyStep
    split_ifs with h1 h2 h3 <;> simp_all
  · unfold MultiSensoryMode.multiDecoyStep MultiSensoryMode.vibrate
    split_ifs with h1 h2 <;> simp_all
  · unfold MultiSensoryMode.multiDecoyStep MultiSensoryMode.vibrate
    split_ifs with h1 h2 <;> simp_all
  · intro hfire₁ hfire₂
    have hstate : (AudioMode.decoyStep level p now lastTime).2 = now := by
      unfold AudioMode.decoyStep at hfire₁ ⊢
      split_ifs at hfire₁ ⊢ <;> simp_all
    rw [hstate] at hfire₂
    unfold AudioMode.decoyStep at hfire₂
    split_ifs at hfire₂ <;> simp_all
  · intro hfire₁ hok hfire₂
    have hstate :
        (MultiSensoryMode.multiDecoyStep level p now lastTime).newLastTime = now := by
      unfold MultiSensoryMode.multiDecoyStep MultiSensoryMode.vibrate at hfire₁ hok ⊢
      split_ifs at hfire₁ hok ⊢ <;> simp_all
    rw [hstate] at hfire₂
    unfold MultiSensoryMode.multiDecoyStep MultiSensoryMode.vibrate at hfire₂
    split_ifs at hfire₂ <;> simp_all

/-- Witness for C4 at concrete inputs: level 3, decoy proximity 2/5,
2000 ms elapsed. -/
theorem decoy_channel_gating_witness :
    (AudioMode.decoyStep 3 (2/5) 2000 0).1 = true
      ↔ 2 ≤ 3 ∧ (0.3 : ℚ) < 2/5 ∧ (1500 : ℤ) < 2000 - 0 :=
  (decoy_channel_gating 3 (2/5) (2/5) 2000 0 5000).1

/-! ### C5 — no feedback path throws -/

/-- Claim C5 is contradicted by the code: the decoy haptic path of the
multi-sensory dispatcher (level ≥ 4, decoy proximity > 0.5, interval elapsed)
calls the local `vibrate` stub, which throws `Function not implemented.`
instead of completing (or degrading to a no-op). -/
theorem multiSensory_decoy_haptic_throws :
    (MultiSensoryMode.multiDecoyStep 4 (3/5) 2000 0).thrown
      = some "Function not implemented."
    ∧ MultiSensoryMode.vibrate 12 = Except.error "Function not implemented." := by
  refine ⟨?_, rfl⟩
  norm_num [MultiSensoryMode.multiDecoyStep, MultiSensoryMode.vibrate]

/-! ### C10 — haptic duration caps -/

/-- Claim C10: every vibration duration passed to the platform vibration API
is at most 400 ms; single durations are capped at 400 explicitly, and the
pattern variants are bounded by construction (≤ 300 for the strong pulse,
≤ 180 for the double-pulse segments, ≤ 100 for the weak pulse). -/
theorem haptic_durations_capped (p v : ℚ) (i : ℕ) (x : ℝ) (q : ℚ)
    (hq0 : 0 ≤ q) (hq1 : q ≤ 1) :
    UseHaptics.vibrateSingle p ≤ 400
    ∧ (i % 2 = 0 → UseHaptics.amplifySegment i v ≤ 400)
    ∧ UseHaptics.vibrateWithIntensity x ≤ 400
    ∧ (∀ d ∈ UseHaptics.vibrationEntries (UseHaptics.vibrateProximityPattern q),
        d ≤ 400)
    ∧ (0.8 < q →
        ∀ d ∈ UseHaptics.vibrationEntries (UseHaptics.vibrateProximityPattern q),
          d ≤ 300)
    ∧ (0.5 < q → q ≤ 0.8 →
        ∀ d ∈ UseHaptics.vibrationEntries (UseHaptics.vibrateProximityPattern q),
          d ≤ 180)
    ∧ (q ≤ 0.5 →
        ∀ d ∈ UseHaptics.vibrationEntries (UseHaptics.vibrateProximityPattern q),
          d ≤ 100) := by
  have h300 : ((⌊q * 300⌋ : ℤ) : ℚ) ≤ 300 := by
    have h1 : ((⌊q * 300⌋ : ℤ) : ℚ) ≤ q * 300 := Int.floor_le _
    nlinarith
  have h150 : ((⌊q * 150⌋ : ℤ) : ℚ) ≤ q * 150 := Int.floor_le _
  have h100 : ((⌊q * 100⌋ : ℤ) : ℚ) ≤ q * 100 := Int.floor_le _
  refine ⟨min_le_left _ _, ?_, min_le_left _ _, ?_, ?_, ?_, ?_⟩
  · intro h
    rw [UseHaptics.amplifySegment, if_pos h]
    exact min_le_left _ _
  · intro d hd
    unfold UseHaptics.vibrateProximityPattern at hd
    split_ifs at hd with hq3 hq8 hq5
    · simp [UseHaptics.vibrationEntries] at hd
    · simp [UseHaptics.vibrationEntries] at hd
      subst hd; linarith
    · simp [UseHaptics.vibrationEntries] at hd
      rcases hd with hd | hd <;> subst hd <;> nlinarith
    · simp [UseHaptics.vibrationEntries] at hd
      subst hd; nlinarith
  · intro hq8a d hd
    unfold UseHaptics.vibrateProximityPattern at hd
    split_ifs at hd with hq3
    · simp [UseHaptics.vibrationEntries] at hd
    · simp [UseHaptics.vibrationEntries] at hd
      subst hd; linarith
  · intro hq5a hq8a d hd
    unfold UseHaptics.vibrateProximityPattern at hd
    split_ifs at hd with hq3 hq8
    · simp [UseHaptics.vibrationEntries] at hd
    · exact absurd hq8 (not_lt.mpr hq8a)
    · simp [UseHaptics.vibrationEntries] at hd
      rcases hd with hd | hd <;> subst hd <;> nlinarith
  · intro hq5a d hd
    unfold UseHaptics.vibrateProximityPattern at hd
    split_ifs at hd with hq3 hq8 hq5
    · simp [UseHaptics.vibrationEntries] at hd
    · exact absurd hq8 (by push_neg; linarith)
    · exact absurd hq5 (by push_neg; linarith)
    · simp [UseHaptics.vibrationEntries] at hd
      subst hd; nlinarith

/-- Witness for C10 at intensity 1 (strong-pulse branch). -/
theorem haptic_durations_capped_witness :
    ((0 : ℚ) ≤ 1 ∧ (1 : ℚ) ≤ 1)
    ∧ UseHaptics.vibrateSingle 500 ≤ 400 := by
  exact ⟨⟨by norm_num, by norm_num⟩,
    (haptic_durations_capped 500 60 0 1 1 (by norm_num) (by norm_num)).1⟩

/-! ### C2 — distance-to-proximity mapper -/

theorem radiusMultiplier_pos (c : Channel) (l : ℕ) :
    0 < ProximityMapper.radiusMultiplier c l := by
  cases c <;> rcases l with _ | _ | _ | _ | _ | _ | l <;>
    first
      | (show (0 : ℝ) < 2.5; norm_num)
      | (show (0 : ℝ) < 2.0; norm_num)
      | (show (0 : ℝ) < 1.6; norm_num)
      | (show (0 : ℝ) < 1.4; norm_num)
      | (show (0 : ℝ) < 1.2; norm_num)
      | (show (0 : ℝ) < 1.5; norm_num)
      | (show (0 : ℝ) < 2.2; norm_num)
      | (show (0 : ℝ) < 1.8; norm_num)
      | (show (0 : ℝ) < 1.3; norm_num)
      | (show (0 : ℝ) < 1.1; norm_num)
      | (show (0 : ℝ) < 1.7; norm_num)
      | (show (0 : ℝ) < 1.0; norm_num)

theorem curveExponent_pos (c : Channel) (l : ℕ) :
    0 < ProximityMapper.curveExponent c l := by
  cases c <;> rcases l with _ | _ | _ | _ | _ | _ | l <;>
    first
      | (show (0 : ℝ) < 0.6; norm_num)
      | (show (0 : ℝ) < 0.4; norm_num)
      | (show (0 : ℝ) < 0.25; norm_num)
      | (show (0 : ℝ) < 0.5; norm_num)
      | (show (0 : ℝ) < 0.7; norm_num)
      | (show (0 : ℝ) < 0.35; norm_num)
      | (show (0 : ℝ) < 0.75; norm_num)
      | (show (0 : ℝ) < 0.45; norm_num)

theorem expandedRadius_pos (c : Channel) (r : ℝ) (l : ℕ) (hr : 0 < r) :
    0 < ProximityMapper.expandedRadius c r l :=
  mul_pos hr (radiusMultiplier_pos c l)

theorem linearProximity_nonneg (c : Channel) (r d : ℝ) (l : ℕ) :
    0 ≤ ProximityMapper.linearProximity c r d l := by
  cases c <;> exact le_max_left _ _

theorem linearProximity_le_one (c : Channel) (r d : ℝ) (l : ℕ)
    (hr : 0 < r) (hd : 0 ≤ d) :
    ProximityMapper.linearProximity c r d l ≤ 1 := by
  have hR := expandedRadius_pos c r l hr
  have hdr : 0 ≤ d / ProximityMapper.expandedRadius c r l := div_nonneg hd hR.le
  cases c
  · refine max_le (by norm_num) ?_
    have h0 : 0 ≤ min (d / ProximityMapper.expandedRadius Channel.primary r l) 1 :=
      le_min hdr zero_le_one
    linarith
  · exact max_le (by norm_num) (by linarith)
  · exact max_le (by norm_num) (by linarith)

theorem linearProximity_at_zero (c : Channel) (r : ℝ) (l : ℕ) :
    ProximityMapper.linearProximity c r 0 l = 1 := by
  cases c <;>
    simp [ProximityMapper.linearProximity, zero_div, min_eq_left zero_le_one,
      max_eq_right zero_le_one]

theorem linearProximity_zero_of_far (c : Channel) (r d : ℝ) (l : ℕ)
    (hr : 0 < r) (hfar : ProximityMapper.expandedRadius c r l ≤ d) :
    ProximityMapper.linearProximity c r d l = 0 := by
  have hR := expandedRadius_pos c r l hr
  have h1 : 1 ≤ d / ProximityMapper.expandedRadius c r l := (one_le_div hR).mpr hfar
  cases c
  · simp [ProximityMapper.linearProximity, min_eq_right h1]
  · exact max_eq_left (by linarith)
  · exact max_eq_left (by linarith)

theorem linearProximity_antitone (c : Channel) (r : ℝ) (l : ℕ) (hr : 0 < r)
    (d₁ d₂ : ℝ) (h : d₁ ≤ d₂) :
    ProximityMapper.linearProximity c r d₂ l ≤ ProximityMapper.linearProximity c r d₁ l := by
  have hR := expandedRadius_pos c r l hr
  have hdiv : d₁ / ProximityMapper.expandedRadius c r l
      ≤ d₂ / ProximityMapper.expandedRadius c r l := by
    rw [div_eq_mul_inv, div_eq_mul_inv]
    exact mul_le_mul_of_nonneg_right h (inv_nonneg.mpr hR.le)
  cases c
  · exact max_le_max le_rfl (by
      have := min_le_min hdiv (le_refl (1 : ℝ))
      linarith)
  · exact max_le_max le_rfl (by linarith)
  · exact max_le_max le_rfl (by linarith)

theorem linearProximity_eq_clamp (c : Channel) (r d : ℝ) (l : ℕ)
    (hr : 0 < r) (hd : 0 ≤ d) :
    ProximityMapper.linearProximity c r d l
      = max 0 (min (1 - d / ProximityMapper.expandedRadius c r l) 1) := by
  have hR := expandedRadius_pos c r l hr
  have hdr : 0 ≤ d / ProximityMapper.expandedRadius c r l := div_nonneg hd hR.le
  cases c
  · rcases le_or_lt (d / ProximityMapper.expandedRadius Channel.primary r l) 1 with h | h
    · rw [ProximityMapper.linearProximity, min_eq_left h,
        min_eq_left (by linarith : 1 - d / ProximityMapper.expandedRadius Channel.primary r l ≤ 1)]
    · rw [ProximityMapper.linearProximity, min_eq_right h.le,
        min_eq_left (by linarith : 1 - d / ProximityMapper.expandedRadius Channel.primary r l ≤ 1)]
      rw [sub_self, max_eq_left (by linarith)]
      exact (max_eq_left (by linarith)).symm
  · rw [ProximityMapper.linearProximity, min_eq_left (by linarith)]
  · rw [ProximityMapper.linearProximity, min_eq_left (by linarith)]

/-- Claim C2: for every level 1–5, channel, base radius r > 0 and distance
d ≥ 0, the adjusted proximity lies in [0, 1]; it equals 1 at d = 0 and 0 for
every d ≥ expandedRadius; it is non-increasing in d; and for level > 2 it
equals the clamped linear value raised to a curve exponent that strictly
decreases as the level rises. -/
theorem proximity_mapper_props (c : Channel) (level : ℕ) (r d : ℝ)
    (hlevel1 : 1 ≤ level) (hlevel5 : level ≤ 5) (hr : 0 < r) (hd : 0 ≤ d) :
    (0 ≤ ProximityMapper.adjustedProximity c r d level
      ∧ ProximityMapper.adjustedProximity c r d level ≤ 1)
    ∧ ProximityMapper.adjustedProximity c r 0 level = 1
    ∧ (ProximityMapper.expandedRadius c r level ≤ d →
        ProximityMapper.adjustedProximity c r d level = 0)
    ∧ (∀ d₂, d ≤ d₂ →
        ProximityMapper.adjustedProximity c r d₂ level
          ≤ ProximityMapper.adjustedProximity c r d level)
    ∧ (2 < level →
        ProximityMapper.adjustedProximity c r d level
          = (max 0 (min (1 - d / ProximityMapper.expandedRadius c r level) 1))
              ^ ProximityMapper.curveExponent c level
        ∧ ProximityMapper.curveExponent c 5 < ProximityMapper.curveExponent c 4
        ∧ ProximityMapper.curveExponent c 4 < ProximityMapper.curveExponent c 3) := by
  have hexp := curveExponent_pos c level
  by_cases hlev : 2 < level
  · have hshape : ∀ d' : ℝ, ProximityMapper.adjustedProximity c r d' level
        = (ProximityMapper.linearProximity c r d' level)
            ^ ProximityMapper.curveExponent c level := by
      intro d'
      rw [ProximityMapper.adjustedProximity, if_pos hlev]
    refine ⟨⟨?_, ?_⟩, ?_, ?_, ?_, ?_⟩
    · rw [hshape]
      exact Real.rpow_nonneg (linearProximity_nonneg c r d level) _
    · rw [hshape]
      exact Real.rpow_le_one (linearProximity_nonneg c r d level)
        (linearProximity_le_one c r d level hr hd) hexp.le
    · rw [hshape, linearProximity_at_zero, Real.one_rpow]
    · intro hfar
      rw [hshape, linearProximity_zero_of_far c r d level hr hfar,
        Real.zero_rpow hexp.ne']
    · intro d₂ hdd
      rw [hshape, hshape]
      exact Real.rpow_le_rpow (linearProximity_nonneg c r d₂ level)
        (linearProximity_antitone c r level hr d d₂ hdd) hexp.le
    · intro _
      refine ⟨?_, ?_, ?_⟩
      · rw [hshape, linearProximity_eq_clamp c r d level hr hd]
      · cases c <;> norm_num [ProximityMapper.curveExponent]
      · cases c <;> norm_num [ProximityMapper.curveExponent]
  · have hshape : ∀ d' : ℝ, ProximityMapper.adjustedProximity c r d' level
        = ProximityMapper.linearProximity c r d' level := by
      intro d'
      rw [ProximityMapper.adjustedProximity, if_neg hlev]
    refine ⟨⟨?_, ?_⟩, ?_, ?_, ?_, ?_⟩
    · rw [hshape]; exact linearProximity_nonneg c r d level
    · rw [hshape]; exact linearProximity_le_one c r d level hr hd
    · rw [hshape]; exact linearProximity_at_zero c r level
    · intro hfar
      rw [hshape]; exact linearProximity_zero_of_far c r d level hr hfar
    · intro d₂ hdd
      rw [hshape, hshape]
      exact linearProximity_antitone c r level hr d d₂ hdd
    · intro hcon; exact absurd hcon hlev

/-- Witness for C2: primary channel, level 3, radius 100, distance 50. -/
theorem proximity_mapper_props_witness :
    ((1 : ℕ) ≤ 3 ∧ (3 : ℕ) ≤ 5 ∧ (0 : ℝ) < 100 ∧ (0 : ℝ) ≤ 50)
    ∧ (0 ≤ ProximityMapper.adjustedProximity Channel.primary 100 50 3
      ∧ ProximityMapper.adjustedProximity Channel.primary 100 50 3 ≤ 1) := by
  exact ⟨⟨by norm_num, by norm_num, by norm_num, by norm_num⟩,
    (proximity_mapper_props Channel.primary 3 100 50 (by norm_num) (by norm_num)
      (by norm_num) (by norm_num)).1⟩

/-! ### C8 — continuous loop volume curve -/

/-- Claim C8: for proximity above the audibility threshold, the target loop
volume equals `0.1 + proximity^1.5 * 0.9`; an update on a playing loop is
applied only when it moves the volume by more than 0.05; and after any update
the volume lies within [0.1, 1.0]. -/
theorem volume_curve_props (p current : ℝ) (hp : 0.1 < p) (hp1 : p ≤ 1) :
    UseAudio.targetVolume p = 0.1 + p ^ (1.5 : ℝ) * 0.9
    ∧ (UseAudio.updateVolume current p ≠ current →
        0.05 < |current - UseAudio.targetVolume p|)
    ∧ (|current - UseAudio.targetVolume p| ≤ 0.05 →
        UseAudio.updateVolume current p = current)
    ∧ (0.1 ≤ current → current ≤ 1 →
        0.1 ≤ UseAudio.updateVolume current p ∧ UseAudio.updateVolume current p ≤ 1) := by
  have hp0 : (0 : ℝ) ≤ p := by linarith
  have hcurve0 : 0 ≤ p ^ (1.5 : ℝ) := Real.rpow_nonneg hp0 _
  have hcurve1 : p ^ (1.5 : ℝ) ≤ 1 := Real.rpow_le_one hp0 hp1 (by norm_num)
  have htv1 : 0.1 ≤ UseAudio.targetVolume p := by
    unfold UseAudio.targetVolume; nlinarith
  have htv2 : UseAudio.targetVolume p ≤ 1 := by
    unfold UseAudio.targetVolume; nlinarith
  refine ⟨rfl, ?_, ?_, ?_⟩
  · intro hne
    by_contra hno
    exact hne (by rw [UseAudio.updateVolume, if_neg hno])
  · intro hle
    rw [UseAudio.updateVolume, if_neg (not_lt.mpr hle)]
  · intro hc1 hc2
    rw [UseAudio.updateVolume]
    split_ifs
    · exact ⟨htv1, htv2⟩
    · exact ⟨hc1, hc2⟩

/-- Witness for C8 at proximity 1 and current volume 1/2. -/
theorem volume_curve_props_witness :
    ((0.1 : ℝ) < 1 ∧ (1 : ℝ) ≤ 1)
    ∧ UseAudio.targetVolume 1 = 0.1 + (1 : ℝ) ^ (1.5 : ℝ) * 0.9 := by
  exact ⟨⟨by norm_num, le_refl 1⟩,
    (volume_curve_props 1 (1/2) (by norm_num) (le_refl 1)).1⟩

/-! ### C7 — decoy count -/

theorem genLoop_length (cfg : GenConfig) (rnd : ℕ → ℝ) :
    ∀ (n i k : ℕ) (placed : List Decoy),
      (GameEngine.genLoop cfg rnd n i k placed).length = n := by
  intro n
  induction n with
  | zero => intro i k placed; rfl
  | succ n ih =>
    intro i k placed
    simp only [GameEngine.genLoop, List.length_cons, ih]

/-- Claim C7: for every arena configuration and every random stream, decoy
generation produces exactly `decoyCount level` decoys — 0 at level 1 and
2, 4, 8, 12 at levels 2–5 — so the count is a function of the level alone. -/
theorem decoy_count_by_level (cfg : GenConfig) (rnd : ℕ → ℝ) :
    (GameEngine.generateDecoys cfg rnd).length = GameEngine.decoyCount cfg.level
    ∧ GameEngine.decoyCount 1 = 0
    ∧ GameEngine.decoyCount 2 = 2
    ∧ GameEngine.decoyCount 3 = 4
    ∧ GameEngine.decoyCount 4 = 8
    ∧ GameEngine.decoyCount 5 = 12 := by
  refine ⟨?_, rfl, rfl, rfl, rfl, rfl⟩
  simp only [GameEngine.generateDecoys, GameEngine.generateDecoysFlagged,
    List.length_map, genLoop_length]

/-! ### C3 — decoy separation -/

theorem placeLoop_flag_valid (cfg : GenConfig) (placed : List Decoy)
    (rnd : ℕ → ℝ) :
    ∀ (fuel k : ℕ),
      (GameEngine.placeLoop cfg placed rnd fuel k).1.2.2 = true →
      GameEngine.attemptValid cfg placed
        (GameEngine.placeLoop cfg placed rnd fuel k).1.1
        (GameEngine.placeLoop cfg placed rnd fuel k).1.2.1 := by
  intro fuel
  induction fuel with
  | zero => intro k h; simp [GameEngine.placeLoop] at h
  | succ fuel ih =>
    intro k h
    simp only [GameEngine.placeLoop] at h ⊢
    by_cases hv : GameEngine.attemptValid cfg placed
        (50 + rnd k * (cfg.width - 100)) (50 + rnd (k + 1) * (cfg.height - 100))
    · rw [if_pos hv] at h ⊢
      exact hv
    · rw [if_neg hv] at h ⊢
      by_cases hf : fuel = 0
      · rw [if_pos hf] at h
        simp at h
      · rw [if_neg hf] at h ⊢
        exact ih k.succ.succ h

theorem genLoop_valid_sep (cfg : GenConfig) (rnd : ℕ → ℝ) :
    ∀ (n i k : ℕ) (placed : List Decoy) (pre suf : List (Decoy × Bool)) (d : Decoy),
      GameEngine.genLoop cfg rnd n i k placed = pre ++ (d, true) :: suf →
      GameEngine.attemptValid cfg (placed ++ pre.map Prod.fst) d.pos.1 d.pos.2 := by
  intro n
  induction n with
  | zero =>
    intro i k placed pre suf d h
    simp [GameEngine.genLoop] at h
  | succ n ih =>
    intro i k placed pre suf d h
    simp only [GameEngine.genLoop] at h
    cases pre with
    | nil =>
      rw [List.nil_append] at h
      obtain ⟨hhead, -⟩ := List.cons.injEq .. ▸ h
      obtain ⟨hd, hflag⟩ := Prod.mk.injEq .. ▸ hhead
      subst hd
      have hval := placeLoop_flag_valid cfg placed rnd 20 k hflag
      simpa using hval
    | cons p0 pre' =>
      rw [List.cons_append] at h
      obtain ⟨hp0, hrest⟩ := List.cons.injEq .. ▸ h
      have hres := ih (i + 1) (GameEngine.genAttrs cfg rnd
          (GameEngine.placeLoop cfg placed rnd 20 k).2).2
        (placed ++ [⟨i, ((GameEngine.placeLoop cfg placed rnd 20 k).1.1,
            (GameEngine.placeLoop cfg placed rnd 20 k).1.2.1),
          (GameEngine.genAttrs cfg rnd (GameEngine.placeLoop cfg placed rnd 20 k).2).1.1,
          (GameEngine.genAttrs cfg rnd (GameEngine.placeLoop cfg placed rnd 20 k).2).1.2.1,
          (GameEngine.genAttrs cfg rnd (GameEngine.placeLoop cfg placed rnd 20 k).2).1.2.2⟩])
        pre' suf d hrest
      subst hp0
      simpa [List.append_assoc] using hres

/-- Counterexample to C3 as stated: with the constant stream 1/2 every
attempt lands on the creature, the 20-attempt budget is exhausted, and the
generator silently accepts a decoy at distance 0 from the target — well below
`minDistFromCreature` — with no flag in the returned list. -/
theorem decoy_silent_fallback_cex :
    ((GameEngine.generateDecoys cfgEx rndHalf).map Decoy.pos).head? = some (400, 300)
    ∧ ((GameEngine.generateDecoysFlagged cfgEx rndHalf).map Prod.snd).head? = some false
    ∧ GameEngine.dist (400, 300) cfgEx.creaturePos
        < GameEngine.minDistFromCreature cfgEx.level := by
  have hdist : GameEngine.dist (400, 300) cfgEx.creaturePos = 0 := by
    simp [GameEngine.dist, cfgEx, Real.sqrt_zero]
  have hval : ¬GameEngine.attemptValid cfgEx [] 400 300 := by
    intro hcon
    exact hcon.1 (by rw [hdist]; norm_num [GameEngine.minDistFromCreature, cfgEx])
  have hplace : ∀ fuel k : ℕ, GameEngine.placeLoop cfgEx [] rndHalf (fuel + 1) k
      = ((400, 300, false), k + 2 * (fuel + 1)) := by
    intro fuel
    induction fuel with
    | zero =>
      intro k
      rw [GameEngine.placeLoop]
      have hx : (50 : ℝ) + rndHalf k * (cfgEx.width - 100) = 400 := by
        norm_num [rndHalf, cfgEx]
      have hy : (50 : ℝ) + rndHalf (k + 1) * (cfgEx.height - 100) = 300 := by
        norm_num [rndHalf, cfgEx]
      rw [hx, hy, if_neg hval]
      norm_num
    | succ fuel ih =>
      intro k
      rw [GameEngine.placeLoop]
      have hx : (50 : ℝ) + rndHalf k * (cfgEx.width - 100) = 400 := by
        norm_num [rndHalf, cfgEx]
      have hy : (50 : ℝ) + rndHalf (k + 1) * (cfgEx.height - 100) = 300 := by
        norm_num [rndHalf, cfgEx]
      rw [hx, hy, if_neg hval, if_neg (Nat.succ_ne_zero fuel), ih]
      congr 1
      ring
  have hgen : GameEngine.generateDecoysFlagged cfgEx rndHalf
      = ({ id := 0, pos := (400, 300),
           radius := (GameEngine.genAttrs cfgEx rndHalf 40).1.1,
           intensity := (GameEngine.genAttrs cfgEx rndHalf 40).1.2.1,
           color := (GameEngine.genAttrs cfgEx rndHalf 40).1.2.2 }, false)
        :: GameEngine.genLoop cfgEx rndHalf 1 1 (GameEngine.genAttrs cfgEx rndHalf 40).2
            [{ id := 0, pos := (400, 300),
               radius := (GameEngine.genAttrs cfgEx rndHalf 40).1.1,
               intensity := (GameEngine.genAttrs cfgEx rndHalf 40).1.2.1,
               color := (GameEngine.genAttrs cfgEx rndHalf 40).1.2.2 }] := by
    show GameEngine.genLoop cfgEx rndHalf (GameEngine.decoyCount cfgEx.level) 0 0 [] = _
    rw [show GameEngine.decoyCount cfgEx.level = 1 + 1 from rfl, GameEngine.genLoop,
      show (20 : ℕ) = 19 + 1 from rfl, hplace 19 0]
    rfl
  refine ⟨?_, ?_, ?_⟩
  · simp [GameEngine.generateDecoys, hgen]
  · simp [hgen]
  · rw [hdist]; norm_num [GameEngine.minDistFromCreature, cfgEx]

/-- Claim C3 (amended): every decoy whose placement loop ended with
`valid = true` (i.e. a point was accepted within the 20-attempt budget) is at
least `minDistFromCreature(level)` from the target and at least 70 from every
previously placed decoy; when the budget is exhausted the last-attempted
point is accepted silently, with no flag in the returned list (see the
counterexample). -/
theorem decoys_valid_separation (cfg : GenConfig) (rnd : ℕ → ℝ)
    (pre suf : List (Decoy × Bool)) (d : Decoy)
    (h : GameEngine.generateDecoysFlagged cfg rnd = pre ++ (d, true) :: suf) :
    GameEngine.minDistFromCreature cfg.level ≤ GameEngine.dist d.pos cfg.creaturePos
    ∧ ∀ e ∈ pre.map Prod.fst, 70 ≤ GameEngine.dist d.pos e.pos := by
  have hv := genLoop_valid_sep cfg rnd (GameEngine.decoyCount cfg.level) 0 0 [] pre suf d h
  rw [List.nil_append] at hv
  obtain ⟨h1, h2⟩ := hv
  constructor
  · have := not_lt.mp h1
    simpa using this
  · intro e he
    have := not_lt.mp (h2 e he)
    simpa using this

theorem dist_cfgW : GameEngine.dist (225, 175) cfgW.creaturePos = Real.sqrt 46250 := by
  norm_num [GameEngine.dist, cfgW]

theorem attemptValid_cfgW : GameEngine.attemptValid cfgW [] 225 175 := by
  constructor
  · rw [dist_cfgW, show GameEngine.minDistFromCreature cfgW.level = 150 from rfl]
    exact not_lt.mpr ((Real.le_sqrt' (by norm_num)).mpr (by norm_num))
  · intro e he
    simp at he

theorem placeLoop_cfgW (k : ℕ) :
    GameEngine.placeLoop cfgW [] rndQuarter 20 k = ((225, 175, true), k + 2) := by
  rw [show (20 : ℕ) = 19 + 1 from rfl, GameEngine.placeLoop]
  have hx : (50 : ℝ) + rndQuarter k * (cfgW.width - 100) = 225 := by
    norm_num [rndQuarter, cfgW]
  have hy : (50 : ℝ) + rndQuarter (k + 1) * (cfgW.height - 100) = 175 := by
    norm_num [rndQuarter, cfgW]
  rw [hx, hy, if_pos attemptValid_cfgW]

theorem generateDecoysFlagged_cfgW :
    GameEngine.generateDecoysFlagged cfgW rndQuarter = [] ++ (dW, true) :: sufW := by
  show GameEngine.genLoop cfgW rndQuarter (GameEngine.decoyCount cfgW.level) 0 0 [] = _
  rw [show GameEngine.decoyCount cfgW.level = 1 + 1 from rfl, GameEngine.genLoop,
    placeLoop_cfgW 0]
  rfl

/-- Witness for C3: with the constant stream 1/4 the first decoy is accepted
within the budget at (225, 175), and the amended theorem yields its
separation from the target. -/
theorem decoys_valid_separation_witness :
    (GameEngine.generateDecoysFlagged cfgW rndQuarter = [] ++ (dW, true) :: sufW)
    ∧ (GameEngine.minDistFromCreature cfgW.level ≤ GameEngine.dist dW.pos cfgW.creaturePos
      ∧ ∀ e ∈ ([] : List (Decoy × Bool)).map Prod.fst,
          70 ≤ GameEngine.dist dW.pos e.pos) :=
  ⟨generateDecoysFlagged_cfgW,
    decoys_valid_separation cfgW rndQuarter [] sufW dW generateDecoysFlagged_cfgW⟩
